import Mathlib

/-!
Shallow embedding of the user_sync_app repository (src/models.py,
src/api_client.py, src/sync_service.py, src/database.py), together with
theorems settling the frozen claims about it.

Modelling conventions:
- MongoDB documents are projected to the fields the code reads
  (get_all_users projects _id, user_id, phone_number, city, state).
- Python None / absent JSON values are Option.none; strings are String.
- datetime.utcnow() is an abstract tick passed in as a Nat.
- The observable result of ExternalAPIClient.get_user_info, as seen by its
  caller, is a FetchResult: found data (HTTP 200 with a truthy body),
  notFound (HTTP 404, or a falsy body, or a swallowed non-client error --
  all of which make fetch_and_prepare_update take its early return), or
  failure (an exception escaping get_user_info once tenacity's retries are
  exhausted).
- The MongoDB bulk_write endpoint is an abstract store function from a
  batch of operations to Except StoreErr Nat (the reported modified count).
-/

/-- Stored user document, as projected by DatabaseManager.get_all_users
(src/database.py lines 43-55): fields _id, user_id, phone_number, city,
state. The object id is modelled as the string str(_id) produces. -/
structure StoredUser where
  _id : String
  user_id : Option String
  phone_number : Option String
  city : Option String
  state : Option String
deriving DecidableEq

/-- Tracked attributes of the external API's JSON body, as read by
fetch_and_prepare_update via api_data.get (src/sync_service.py 49-51). -/
structure ApiData where
  phone_number : Option String
  city : Option String
  state : Option String
deriving DecidableEq

/-- Data class UserUpdate of src/models.py. -/
structure UserUpdate where
  user_id : String
  phone_number : Option String := none
  city : Option String := none
  state : Option String := none
  last_synced : Option Nat := none
deriving DecidableEq

/-- The outcome of one call to ExternalAPIClient.get_user_info as its caller
observes it (src/api_client.py 46-80): found (200, truthy json body),
notFound (404 returns None; a falsy body or a swallowed unexpected error is
observationally the same None to the caller), or failure (an
aiohttp.ClientError or timeout that exhausts the three tenacity attempts
and escapes as an exception). -/
inductive FetchResult where
  | found (data : ApiData)
  | notFound
  | failure
deriving DecidableEq

/-- The expression user.get("user_id") or str(user.get("_id")) of
src/sync_service.py line 35: a missing or falsy (empty) user_id falls back
to the string form of the object id. -/
def userIdOf (u : StoredUser) : String :=
  match u.user_id with
  | some s => if s = "" then u._id else s
  | none => u._id

/-- UserSyncService.fetch_and_prepare_update (src/sync_service.py 24-72)
after the semaphore acquisition and rate-limit sleep: on a failure the
catch-all except block returns None; on notFound the falsy-check returns
None; on found data it compares the three tracked fields with Python
inequality (absent-vs-absent equal) and, if any differs, builds a
UserUpdate carrying all three fetched values and the current time. -/
def fetch_and_prepare_update (u : StoredUser) (fetch : FetchResult) (now : Nat) :
    Option UserUpdate :=
  match fetch with
  | .failure => none
  | .notFound => none
  | .found api =>
      if u.phone_number ≠ api.phone_number ∨ u.city ≠ api.city ∨
          u.state ≠ api.state then
        some { user_id := userIdOf u, phone_number := api.phone_number,
               city := api.city, state := api.state, last_synced := some now }
      else
        none

/-- A raised exception, as an opaque value carrying its message. -/
inductive Exn where
  | exn (msg : String)
deriving DecidableEq

/-- One element of the list asyncio.gather(..., return_exceptions=True)
returns in sync_users (src/sync_service.py 94): either a captured exception
or the value the per-record coroutine returned. -/
abbrev SyncResult := Except Exn (Option UserUpdate)

/-- The per-record result reaching the gather list. Because
fetch_and_prepare_update catches every exception inside its unit and
returns None, the coroutine always returns normally: the gather entry is
always a value, never a captured exception. -/
def resultOf (u : StoredUser) (fetch : FetchResult) (now : Nat) : SyncResult :=
  .ok (fetch_and_prepare_update u fetch now)

/-- The isinstance(r, Exception) test of src/sync_service.py 106 and 110. -/
def isException : SyncResult → Bool
  | .error _ => true
  | .ok _ => false

/-- users_checked of the statistics dict (src/sync_service.py 110):
the number of gather results that are not exceptions. -/
def users_checked_count (results : List SyncResult) : Nat :=
  (results.filter (fun r => !(isException r))).length

/-- errors of the statistics dict (src/sync_service.py 106): the number of
gather results that are exceptions. -/
def errors_count (results : List SyncResult) : Nat :=
  (results.filter isException).length

/-- The comprehension of src/sync_service.py 97-100: keep exactly the
results that are UserUpdate instances. -/
def collectUpdates (results : List SyncResult) : List UserUpdate :=
  results.filterMap fun r =>
    match r with
    | .ok (some u) => some u
    | _ => none

example :
    fetch_and_prepare_update
      { _id := "1", user_id := some "u1", phone_number := some "111",
        city := some "a", state := some "b" }
      (.found { phone_number := some "999", city := some "a", state := some "b" }) 5 =
    some { user_id := "u1", phone_number := some "999", city := some "a",
           state := some "b", last_synced := some 5 } := by decide

example :
    fetch_and_prepare_update
      { _id := "1", user_id := some "u1", phone_number := some "111",
        city := some "a", state := some "b" }
      (.found { phone_number := some "111", city := some "a", state := some "b" }) 5 =
    none := by decide

example :
    fetch_and_prepare_update
      { _id := "1", user_id := some "u1", phone_number := some "111",
        city := some "a", state := some "b" } .failure 5 = none := by decide

/-- A BSON value appearing in an update document: a string field value, or
the last_synced datetime (which bulk_update_users copies from the payload
unconditionally, so it may be the dataclass default None). -/
inductive BsonVal where
  | str (s : String)
  | time (t : Option Nat)
deriving DecidableEq

/-- The dollar-set document DatabaseManager.bulk_update_users builds for one
UserUpdate (src/database.py 68-79), as an association list in the insertion
order of the Python dict: last_synced first and unconditionally, then each
tracked field only when the payload value is not None. -/
def build_update_doc (u : UserUpdate) : List (String × BsonVal) :=
  [("last_synced", BsonVal.time u.last_synced)]
    ++ (match u.phone_number with
        | some p => [("phone_number", BsonVal.str p)]
        | none => [])
    ++ (match u.city with
        | some c => [("city", BsonVal.str c)]
        | none => [])
    ++ (match u.state with
        | some s => [("state", BsonVal.str s)]
        | none => [])

/-- One update_one operation appended to the operations list
(src/database.py 77-83): filter on user_id, the built set document, and
upsert False. -/
structure UpdateOp where
  filter_user_id : String
  set_doc : List (String × BsonVal)
  upsert : Bool
deriving DecidableEq

/-- The operation bulk_update_users builds for one payload. -/
def mkOperation (u : UserUpdate) : UpdateOp :=
  { filter_user_id := u.user_id, set_doc := build_update_doc u, upsert := false }

/-- The slicing loop for i in range(0, len(operations), batch_size) with
batch = operations with indices i to i+batch_size (src/database.py 90-92),
as the list of successive batches. Defined for bs at least 1 (Python's
range would raise on step 0; Config.BATCH_SIZE is a positive int). -/
def chunksOf {α : Type} (bs : Nat) : List α → List (List α)
  | [] => []
  | x :: xs => (x :: xs.take (bs - 1)) :: chunksOf bs (xs.drop (bs - 1))
termination_by l => l.length
decreasing_by simp; omega

/-- A PyMongoError raised by the store, carrying its message. -/
inductive StoreErr where
  | pyMongoError (msg : String)
deriving DecidableEq

/-- The collection's bulk_write endpoint, abstracted: one call per batch of
operations, returning the reported modified count or raising. -/
abbrev Store := List UpdateOp → Except StoreErr Nat

/-- The batch loop of bulk_update_users (src/database.py 88-96): one
bulk_write call per chunk, accumulating total_modified; a raised
PyMongoError aborts the loop and propagates (src/database.py 99-101),
discarding the counts accumulated so far. -/
def runBatches (store : Store) : List (List UpdateOp) → Except StoreErr Nat
  | [] => .ok 0
  | b :: rest =>
      match store b with
      | .error e => .error e
      | .ok c =>
          match runBatches store rest with
          | .error e => .error e
          | .ok total => .ok (c + total)

/-- DatabaseManager.bulk_update_users (src/database.py 57-101): early return
0 on an empty update list, otherwise build one operation per payload in
order, slice the operations into batches of Config.BATCH_SIZE and run them,
returning the summed modified count or propagating the store error. -/
def bulk_update_users (batch_size : Nat) (store : Store)
    (updates : List UserUpdate) : Except StoreErr Nat :=
  if updates.isEmpty then .ok 0
  else runBatches store (chunksOf batch_size (updates.map mkOperation))

/-- The statistics dict sync_users returns (src/sync_service.py 108-114). -/
structure RunStats where
  total_users : Nat
  users_checked : Nat
  users_updated : Nat
  errors : Nat
  duration_seconds : Nat
deriving DecidableEq

/-- UserSyncService.sync_users (src/sync_service.py 74-121), with the
already-listed user documents, the per-record fetch outcome, the clock tick
and the measured duration as inputs. One gather result per user document;
the updates comprehension keeps the UserUpdate values; bulk persistence
runs only when updates is non-empty (an empty list would yield 0 either
way, by the early return in bulk_update_users); a store error re-raises
out of sync_users (src/sync_service.py 119-121), so no statistics value is
returned on a persistence fault. -/
def sync_users (batch_size : Nat) (store : Store) (users : List StoredUser)
    (fetch : StoredUser → FetchResult) (now dur : Nat) :
    Except StoreErr RunStats :=
  let results := users.map fun u => resultOf u (fetch u) now
  let updates := collectUpdates results
  let modified : Except StoreErr Nat :=
    if updates.isEmpty then .ok 0
    else bulk_update_users batch_size store updates
  match modified with
  | .error e => .error e
  | .ok m =>
      .ok { total_users := users.length,
            users_checked := users_checked_count results,
            users_updated := m,
            errors := errors_count results,
            duration_seconds := dur }

example : chunksOf 2 [1, 2, 3, 4, 5] = [[1, 2], [3, 4], [5]] := by
  simp [chunksOf]

example : chunksOf 3 ([] : List Nat) = [] := by simp [chunksOf]

example :
    bulk_update_users 2 (fun b => .ok b.length)
      [{ user_id := "a" }, { user_id := "b" }, { user_id := "c" }] = .ok 3 := by
  simp [bulk_update_users, chunksOf, runBatches]

/-- Phase of one per-record unit of work inside fetch_and_prepare_update
(src/sync_service.py 34-72): waiting to enter the async-with block on the
semaphore; holding a slot while sleeping the rate-limit delay (line 38);
holding a slot while the remote lookup call is in flight (line 41); holding
a slot while comparing fields and building the payload (lines 43-68); done
once the async-with block is exited and the slot released. -/
inductive UnitPhase where
  | waiting
  | delaying
  | fetching
  | comparing
  | done
deriving DecidableEq

/-- Whether a unit in this phase holds one of the semaphore's slots. -/
def holdsSlot : UnitPhase → Bool
  | .waiting => false
  | .done => false
  | _ => true

/-- Whether a unit in this phase has its remote lookup call in flight. -/
def inFetch : UnitPhase → Bool
  | .fetching => true
  | _ => false

/-- Interleaving state of one run: the semaphore's available-permit count
and the phase of every scheduled per-record unit. -/
structure SchedState where
  avail : Nat
  units : List UnitPhase
deriving DecidableEq

/-- Start of a run: the semaphore initialized with the configured capacity
(asyncio.Semaphore(Config.CONCURRENT_REQUESTS), src/sync_service.py 22) and
one waiting unit per listed record (src/sync_service.py 93). -/
def initState (capacity m : Nat) : SchedState :=
  { avail := capacity, units := List.replicate m .waiting }

/-- Number of units whose lookup call is in flight. -/
def fetchCount (s : SchedState) : Nat := (s.units.filter inFetch).length

/-- Number of units holding a semaphore slot. -/
def heldCount (s : SchedState) : Nat := (s.units.filter holdsSlot).length

/-- One interleaving step of the run: some unit advances one phase. A
waiting unit enters the async-with block only when a permit is available,
decrementing the count (asyncio semaphore acquire); leaving the block
increments it (release). The other two steps need no coordination. -/
inductive SchedStep : SchedState → SchedState → Prop where
  | acquire (s : SchedState) (i : Nat) (hi : s.units.get? i = some .waiting)
      (ha : 0 < s.avail) :
      SchedStep s { avail := s.avail - 1, units := s.units.set i .delaying }
  | startFetch (s : SchedState) (i : Nat) (hi : s.units.get? i = some .delaying) :
      SchedStep s { avail := s.avail, units := s.units.set i .fetching }
  | finishFetch (s : SchedState) (i : Nat) (hi : s.units.get? i = some .fetching) :
      SchedStep s { avail := s.avail, units := s.units.set i .comparing }
  | release (s : SchedState) (i : Nat) (hi : s.units.get? i = some .comparing) :
      SchedStep s { avail := s.avail + 1, units := s.units.set i .done }

/-- States a run can be in: reachable from the initial state by
interleaving steps. -/
def Reach (capacity m : Nat) (s : SchedState) : Prop :=
  Relation.ReflTransGen SchedStep (initState capacity m) s

/-- Updating one element of a list shifts a counted predicate by the
contribution of the old and the new element. -/
theorem length_filter_set {α : Type} (p : α → Bool) (l : List α) :
    ∀ (i : Nat) (a b : α), l.get? i = some a →
      ((l.set i b).filter p).length + (if p a then 1 else 0)
        = (l.filter p).length + (if p b then 1 else 0) := by
  induction l with
  | nil => intro i a b h; simp at h
  | cons x xs ih =>
      intro i a b h
      cases i with
      | zero =>
          have hx : x = a := Option.some.inj h
          subst hx
          by_cases hpx : p x <;> by_cases hpb : p b <;>
            simp [List.filter_cons, hpx, hpb]
      | succ n =>
          have hn : xs.get? n = some a := h
          have := ih n a b hn
          by_cases hpx : p x <;> simp [List.filter_cons, hpx] <;> omega

/-- The semaphore invariant: available permits plus held permits equal the
configured capacity. -/
def slotInv (capacity : Nat) (s : SchedState) : Prop :=
  s.avail + heldCount s = capacity

theorem slotInv_init (capacity m : Nat) : slotInv capacity (initState capacity m) := by
  unfold slotInv initState heldCount
  induction m with
  | zero => simp
  | succ k ih =>
      simp only [List.replicate_succ, List.filter_cons, holdsSlot] at *
      simpa using ih

theorem slotInv_step {capacity : Nat} {s t : SchedState} (h : SchedStep s t)
    (inv : slotInv capacity s) : slotInv capacity t := by
  unfold slotInv heldCount at *
  cases h with
  | acquire i hi ha =>
      have := length_filter_set holdsSlot s.units i .waiting .delaying hi
      simp [holdsSlot] at this
      dsimp only
      omega
  | startFetch i hi =>
      have := length_filter_set holdsSlot s.units i .delaying .fetching hi
      simp [holdsSlot] at this
      dsimp only
      omega
  | finishFetch i hi =>
      have := length_filter_set holdsSlot s.units i .fetching .comparing hi
      simp [holdsSlot] at this
      dsimp only
      omega
  | release i hi =>
      have := length_filter_set holdsSlot s.units i .comparing .done hi
      simp [holdsSlot] at this
      dsimp only
      omega

theorem slotInv_reach {capacity m : Nat} {s : SchedState} (h : Reach capacity m s) :
    slotInv capacity s := by
  induction h with
  | refl => exact slotInv_init capacity m
  | tail _ hstep ih => exact slotInv_step hstep ih

/-- Units with a lookup in flight hold a slot, so they never outnumber the
slot holders. -/
theorem fetchCount_le_heldCount (s : SchedState) : fetchCount s ≤ heldCount s := by
  unfold fetchCount heldCount
  induction s.units with
  | nil => simp
  | cons x xs ih =>
      cases x <;> simp [List.filter_cons, inFetch, holdsSlot] <;> omega

/-- C2: Diff correctness. For every stored record and present fetched
attributes, fetch_and_prepare_update produces an update payload if and only
if at least one tracked field (phone_number, city, state) differs by exact
value equality, absent-vs-absent counting as equal; and a produced payload
carries the fetched value of every tracked field, hence in particular the
new value of every differing field. -/
theorem C2_diff_correctness (u : StoredUser) (api : ApiData) (now : Nat) :
    ((fetch_and_prepare_update u (.found api) now).isSome ↔
      (u.phone_number ≠ api.phone_number ∨ u.city ≠ api.city ∨
        u.state ≠ api.state)) ∧
    (∀ p, fetch_and_prepare_update u (.found api) now = some p →
      p.phone_number = api.phone_number ∧ p.city = api.city ∧
        p.state = api.state) := by
  unfold fetch_and_prepare_update
  by_cases h : u.phone_number ≠ api.phone_number ∨ u.city ≠ api.city ∨
      u.state ≠ api.state
  · refine ⟨by simp [h], ?_⟩
    intro p hp
    simp [h] at hp
    simp [← hp]
  · refine ⟨by simp [h], ?_⟩
    intro p hp
    simp [h] at hp

/-- C7: Not-found is not an error. A record whose lookup reports not-found
yields no payload and no exception: its gather entry is a plain None value,
it adds one to the users_checked count, adds nothing to the errors count,
and contributes no payload to the update list handed to persistence. -/
theorem C7_not_found_not_error (u : StoredUser) (t : Nat)
    (pre post : List SyncResult) :
    fetch_and_prepare_update u .notFound t = none ∧
    resultOf u .notFound t = .ok none ∧
    users_checked_count (pre ++ resultOf u .notFound t :: post)
      = users_checked_count (pre ++ post) + 1 ∧
    errors_count (pre ++ resultOf u .notFound t :: post)
      = errors_count (pre ++ post) ∧
    collectUpdates (pre ++ resultOf u .notFound t :: post)
      = collectUpdates (pre ++ post) := by
  refine ⟨rfl, rfl, ?_, ?_, ?_⟩
  · simp [users_checked_count, resultOf, fetch_and_prepare_update, isException,
      List.filter_append, List.filter_cons]
    omega
  · simp [errors_count, resultOf, fetch_and_prepare_update, isException,
      List.filter_append, List.filter_cons]
  · simp [collectUpdates, resultOf, fetch_and_prepare_update,
      List.filterMap_append]

/-- C9: Implicit claim. Every payload the per-record unit produces is
exactly the record carrying the fetched values of all three tracked fields
(also the ones that did not differ) plus the identifier and timestamp; and
the persisted update document sets every tracked field whose payload value
is non-absent, with exactly that value. -/
theorem C9_payload_carries_all_tracked_fields (u : StoredUser) (api : ApiData)
    (now : Nat) (q : UserUpdate) :
    (∀ p, fetch_and_prepare_update u (.found api) now = some p →
      p = { user_id := userIdOf u, phone_number := api.phone_number,
            city := api.city, state := api.state, last_synced := some now }) ∧
    (∀ s, (q.phone_number = some s →
            ("phone_number", BsonVal.str s) ∈ build_update_doc q) ∧
          (q.city = some s → ("city", BsonVal.str s) ∈ build_update_doc q) ∧
          (q.state = some s → ("state", BsonVal.str s) ∈ build_update_doc q)) := by
  constructor
  · intro p hp
    unfold fetch_and_prepare_update at hp
    by_cases h : u.phone_number ≠ api.phone_number ∨ u.city ≠ api.city ∨
        u.state ≠ api.state
    · simp [h] at hp
      exact hp.symm
    · simp [h] at hp
  · intro s
    refine ⟨fun h => ?_, fun h => ?_, fun h => ?_⟩ <;>
      simp [build_update_doc, h]

/-- C10: Implicit claim. The update document built for a payload always
sets last_synced (to the payload's timestamp value, unconditionally), sets
nothing besides last_synced and tracked fields whose payload value is
non-absent, and for a payload whose tracked values are all absent it is
exactly the one-entry last_synced document, touching nothing else. -/
theorem C10_update_doc_frame (p : UserUpdate) :
    ("last_synced", BsonVal.time p.last_synced) ∈ build_update_doc p ∧
    (∀ kv ∈ build_update_doc p,
      kv = ("last_synced", BsonVal.time p.last_synced) ∨
      (∃ s, p.phone_number = some s ∧ kv = ("phone_number", BsonVal.str s)) ∨
      (∃ s, p.city = some s ∧ kv = ("city", BsonVal.str s)) ∨
      (∃ s, p.state = some s ∧ kv = ("state", BsonVal.str s))) ∧
    (p.phone_number = none → p.city = none → p.state = none →
      build_update_doc p = [("last_synced", BsonVal.time p.last_synced)]) := by
  refine ⟨by simp [build_update_doc], ?_, ?_⟩
  · intro kv hkv
    rcases hph : p.phone_number with _ | a <;>
    rcases hci : p.city with _ | b <;>
    rcases hst : p.state with _ | c <;>
      simp [build_update_doc, hph, hci, hst] at hkv ⊢ <;> tauto
  · intro h1 h2 h3
    simp [build_update_doc, h1, h2, h3]

theorem chunksOf_flatten {α : Type} (bs : Nat) (l : List α) :
    (chunksOf bs l).flatten = l := by
  induction l using chunksOf.induct bs with
  | case1 => simp [chunksOf]
  | case2 x xs ih => simp [chunksOf, ih]

theorem chunksOf_length {α : Type} (bs : Nat) (hbs : 0 < bs) (l : List α) :
    (chunksOf bs l).length = (l.length + bs - 1) / bs := by
  induction l using chunksOf.induct bs with
  | case1 =>
      rw [chunksOf]
      simp only [List.length_nil, Nat.zero_add]
      exact (Nat.div_eq_of_lt (by omega)).symm
  | case2 x xs ih =>
      rw [chunksOf]
      simp only [List.length_cons, List.length_drop] at ih ⊢
      rw [ih]
      rcases le_or_lt (bs - 1) xs.length with hle | hlt
      · have e1 : xs.length - (bs - 1) + bs - 1 = xs.length := by omega
        have e2 : xs.length + 1 + bs - 1 = xs.length + bs := by omega
        rw [e1, e2, Nat.add_div_right _ hbs]
      · have e1 : xs.length - (bs - 1) + bs - 1 = bs - 1 := by omega
        have e2 : xs.length + 1 + bs - 1 = xs.length + bs := by omega
        rw [e1, e2, Nat.add_div_right _ hbs,
          Nat.div_eq_of_lt (show bs - 1 < bs by omega),
          Nat.div_eq_of_lt (show xs.length < bs by omega)]

theorem mem_chunksOf {α : Type} {bs : Nat} {l b : List α}
    (hbs : 0 < bs) (hb : b ∈ chunksOf bs l) : 0 < b.length ∧ b.length ≤ bs := by
  induction l using chunksOf.induct bs with
  | case1 => rw [chunksOf] at hb; simp at hb
  | case2 x xs ih =>
      rw [chunksOf] at hb
      rcases List.mem_cons.mp hb with h | h
      · subst h
        refine ⟨by simp, ?_⟩
        simp only [List.length_cons, List.length_take]
        omega
      · exact ih h

theorem runBatches_all_ok (f : List UpdateOp → Nat) (batches : List (List UpdateOp)) :
    runBatches (fun b => .ok (f b)) batches = .ok ((batches.map f).sum) := by
  induction batches with
  | nil => rfl
  | cons b rest ih => simp [runBatches, ih]

/-- C4: Batch chunking. For every chunk size C greater than 0 and payload
list, the operations list (one operation per payload, in order) is sliced
into exactly ceil(P/C) batches, each of size between 1 and C, whose
in-order concatenation is the whole operations list; and when every store
call succeeds, bulk_update_users issues one call per batch and returns the
sum of the per-call reported modified counts. -/
theorem C4_batch_chunking (C : Nat) (hC : 0 < C) (updates : List UserUpdate) :
    ((chunksOf C (updates.map mkOperation)).length
        = (updates.length + C - 1) / C) ∧
    (∀ b ∈ chunksOf C (updates.map mkOperation),
        0 < b.length ∧ b.length ≤ C) ∧
    ((chunksOf C (updates.map mkOperation)).flatten = updates.map mkOperation) ∧
    (∀ f : List UpdateOp → Nat,
      bulk_update_users C (fun b => .ok (f b)) updates
        = .ok (((chunksOf C (updates.map mkOperation)).map f).sum)) := by
  refine ⟨?_, fun b hb => mem_chunksOf hC hb, chunksOf_flatten C _, ?_⟩
  · rw [chunksOf_length C hC]
    simp
  · intro f
    unfold bulk_update_users
    by_cases h : updates.isEmpty
    · rw [if_pos h]
      have : updates = [] := List.isEmpty_iff.mp h
      subst this
      simp [chunksOf]
    · rw [if_neg h]
      exact runBatches_all_ok f _

/-- Concrete payload list used to instantiate the chunking theorem. -/
def c4_updates : List UserUpdate :=
  [{ user_id := "a", phone_number := some "1", last_synced := some 9 },
   { user_id := "b", city := some "x", last_synced := some 9 },
   { user_id := "c", state := some "TX", last_synced := some 9 }]

/-- C4 witness: the chunking theorem applied at chunk size 2 and three
concrete payloads (two batch calls, sizes 2 and 1). -/
theorem C4_batch_chunking_witness :
    ((chunksOf 2 (c4_updates.map mkOperation)).length
        = (c4_updates.length + 2 - 1) / 2) ∧
    (∀ b ∈ chunksOf 2 (c4_updates.map mkOperation),
        0 < b.length ∧ b.length ≤ 2) ∧
    ((chunksOf 2 (c4_updates.map mkOperation)).flatten
        = c4_updates.map mkOperation) ∧
    (∀ f : List UpdateOp → Nat,
      bulk_update_users 2 (fun b => .ok (f b)) c4_updates
        = .ok (((chunksOf 2 (c4_updates.map mkOperation)).map f).sum)) :=
  C4_batch_chunking 2 (by decide) c4_updates

theorem checked_add_errors (results : List SyncResult) :
    users_checked_count results + errors_count results = results.length := by
  unfold users_checked_count errors_count
  induction results with
  | nil => simp
  | cons r rs ih =>
      cases r <;> simp [List.filter_cons, isException] at ih ⊢ <;> omega

/-- Running sync_users is persisting the collected updates and packaging
the statistics: the isEmpty guard before the bulk call coincides with the
early return inside bulk_update_users. -/
theorem sync_users_run (batch_size : Nat) (store : Store)
    (users : List StoredUser) (fetch : StoredUser → FetchResult) (now dur : Nat) :
    sync_users batch_size store users fetch now dur =
      match bulk_update_users batch_size store
          (collectUpdates (users.map fun u => resultOf u (fetch u) now)) with
      | .error e => .error e
      | .ok m =>
          .ok { total_users := users.length,
                users_checked :=
                  users_checked_count (users.map fun u => resultOf u (fetch u) now),
                users_updated := m,
                errors :=
                  errors_count (users.map fun u => resultOf u (fetch u) now),
                duration_seconds := dur } := by
  unfold sync_users bulk_update_users
  by_cases h : (collectUpdates (users.map fun u => resultOf u (fetch u) now)).isEmpty <;>
    simp [h]

/-- C5 counterexample: the claimed statistics list violating the equality
cannot exist — for every gather result list the non-exception count plus
the exception count is the length of the list, the partition being
exhaustive and exclusive by construction. -/
theorem C5_counterexample :
    ¬ ∃ results : List SyncResult,
        users_checked_count results + errors_count results ≠ results.length := by
  rintro ⟨rs, h⟩
  exact h (checked_add_errors rs)

/-- C5 amended: the equality users_checked plus errors equals total_users
IS guaranteed by construction: it holds of the gather result list of every
run, and of the statistics of every run that returns statistics. -/
theorem C5_amended_counts_complementary (users : List StoredUser)
    (fetch : StoredUser → FetchResult) (now batch_size : Nat)
    (store : Store) (dur : Nat) :
    (users_checked_count (users.map fun u => resultOf u (fetch u) now)
      + errors_count (users.map fun u => resultOf u (fetch u) now)
      = users.length) ∧
    (∀ stats, sync_users batch_size store users fetch now dur = .ok stats →
      stats.users_checked + stats.errors = stats.total_users) := by
  have base := checked_add_errors (users.map fun u => resultOf u (fetch u) now)
  simp only [List.length_map] at base
  refine ⟨base, ?_⟩
  intro stats h
  rw [sync_users_run] at h
  split at h
  · simp at h
  · rw [← Except.ok.inj h]
    simpa using base

/-- C8: A persistence fault is fatal and discards the statistics: when the
batched persistence of the collected updates raises a store error,
sync_users propagates that error and returns no statistics value, the
already-computed checked and error counts included; when persistence
succeeds, sync_users returns the complete statistics value (every field
populated). -/
theorem C8_persistence_fault_fatal (batch_size : Nat) (store : Store)
    (users : List StoredUser) (fetch : StoredUser → FetchResult) (now dur : Nat) :
    (∀ e, bulk_update_users batch_size store
        (collectUpdates (users.map fun u => resultOf u (fetch u) now)) = .error e →
      sync_users batch_size store users fetch now dur = .error e) ∧
    (∀ n, bulk_update_users batch_size store
        (collectUpdates (users.map fun u => resultOf u (fetch u) now)) = .ok n →
      sync_users batch_size store users fetch now dur =
        .ok { total_users := users.length,
              users_checked :=
                users_checked_count (users.map fun u => resultOf u (fetch u) now),
              users_updated := n,
              errors :=
                errors_count (users.map fun u => resultOf u (fetch u) now),
              duration_seconds := dur }) := by
  constructor
  · intro e he
    rw [sync_users_run, he]
  · intro n hn
    rw [sync_users_run, hn]

/-- In every run, no gather entry is an exception (the unit's catch-all
except block converts every fault to a None return), so the errors counter
is 0 and the users_checked counter equals the number of listed records,
whatever the per-record fetch outcomes are. -/
theorem errors_count_always_zero (users : List StoredUser)
    (fetch : StoredUser → FetchResult) (now : Nat) :
    errors_count (users.map fun u => resultOf u (fetch u) now) = 0 ∧
    users_checked_count (users.map fun u => resultOf u (fetch u) now)
      = users.length := by
  unfold errors_count users_checked_count
  induction users with
  | nil => simp
  | cons u us ih =>
      simp [List.filter_cons, resultOf, isException] at ih ⊢
      exact ih

/-- First record of the C1 failing run; its remote lookup raises after the
retries are exhausted. -/
def c1_user1 : StoredUser :=
  { _id := "64a1", user_id := some "u1", phone_number := some "111",
    city := some "Springfield", state := some "IL" }

/-- Second record of the C1 failing run; its remote lookup succeeds with a
changed phone number. -/
def c1_user2 : StoredUser :=
  { _id := "64a2", user_id := some "u2", phone_number := some "222",
    city := some "Shelbyville", state := some "IL" }

/-- The remote lookup of the C1 failing run: a terminal failure for u1 and
changed data for u2 (k equals 1 of m equals 2). -/
def c1_fetch (u : StoredUser) : FetchResult :=
  if u.user_id = some "u1" then .failure
  else .found { phone_number := some "999", city := some "Shelbyville",
                state := some "IL" }

/-- C1 evaluated at the failing input: the remote lookup fails terminally
for exactly 1 of the 2 records, yet the run returns errors equal to 0 and
users_checked equal to 2 (the claim and the spec require errors equal to 1
and users_checked equal to 1): the per-unit catch-all turns the terminal
lookup failure into a plain None, so the orchestrator's exception
classification never sees it. Persistence still receives only the one
real payload. -/
theorem C1_swallowed_failure_run :
    sync_users 100 (fun b => .ok b.length) [c1_user1, c1_user2] c1_fetch 7 3 =
      .ok { total_users := 2, users_checked := 2, users_updated := 1,
            errors := 0, duration_seconds := 3 } := by
  rw [sync_users_run]
  simp [c1_user1, c1_user2, c1_fetch, resultOf, fetch_and_prepare_update,
    collectUpdates, users_checked_count, errors_count, isException,
    bulk_update_users, chunksOf, runBatches, mkOperation, userIdOf,
    build_update_doc, List.filter_cons]

/-- Stored record of the C3 counterexample: phone_number present. -/
def c3_user : StoredUser :=
  { _id := "64b1", user_id := some "u3", phone_number := some "555-1234",
    city := some "Austin", state := some "TX" }

/-- Fetched attributes of the C3 counterexample: phone_number absent,
other fields unchanged. -/
def c3_api : ApiData :=
  { phone_number := none, city := some "Austin", state := some "TX" }

/-- The payload the diff produces for the C3 counterexample. -/
def c3_payload : UserUpdate :=
  { user_id := "u3", phone_number := none, city := some "Austin",
    state := some "TX", last_synced := some 42 }

/-- C3 counterexample: a stored record with a non-absent phone_number and
fetched attributes with phone_number absent. The diff does produce an
update payload, but the update document built for that payload sets only
last_synced, city and state: it does not touch phone_number, so the
clearing is never persisted and the claim fails at this input. -/
theorem C3_counterexample :
    fetch_and_prepare_update c3_user (.found c3_api) 42 = some c3_payload ∧
    (build_update_doc c3_payload).map Prod.fst = ["last_synced", "city", "state"] ∧
    "phone_number" ∉ (build_update_doc c3_payload).map Prod.fst := by
  refine ⟨by decide, by decide, by decide⟩

/-- C3 amended: a stored-non-absent, fetched-absent tracked field does
trigger an update payload (with that field absent in the payload), but the
persistence step omits absent payload fields from the update document, so
the stored field is left untouched: the clearing is detected but not
propagated to the store. -/
theorem C3_clearing_detected_not_persisted (u : StoredUser) (api : ApiData)
    (now : Nat) :
    ((u.phone_number ≠ none ∧ api.phone_number = none) ∨
     (u.city ≠ none ∧ api.city = none) ∨
     (u.state ≠ none ∧ api.state = none) →
      (fetch_and_prepare_update u (.found api) now).isSome) ∧
    (∀ p, fetch_and_prepare_update u (.found api) now = some p →
      (p.phone_number = none →
        "phone_number" ∉ (build_update_doc p).map Prod.fst) ∧
      (p.city = none → "city" ∉ (build_update_doc p).map Prod.fst) ∧
      (p.state = none → "state" ∉ (build_update_doc p).map Prod.fst)) := by
  constructor
  · intro h
    unfold fetch_and_prepare_update
    have hcond : u.phone_number ≠ api.phone_number ∨ u.city ≠ api.city ∨
        u.state ≠ api.state := by
      rcases h with ⟨h1, h2⟩ | ⟨h1, h2⟩ | ⟨h1, h2⟩
      · exact Or.inl (h2 ▸ h1)
      · exact Or.inr (Or.inl (h2 ▸ h1))
      · exact Or.inr (Or.inr (h2 ▸ h1))
    simp [hcond]
  · intro p hp
    refine ⟨fun h => ?_, fun h => ?_, fun h => ?_⟩ <;>
      rcases hph : p.phone_number with _ | a <;>
      rcases hci : p.city with _ | b <;>
      rcases hst : p.state with _ | c <;>
        simp_all [build_update_doc]

/-- C6: Concurrency bound. For every configured capacity of at least 1 and
every record count, in every state reachable in the interleaving semantics
of a run, the number of units whose remote lookup call is in flight never
exceeds the capacity: the semaphore invariant bounds the slot holders, and
every in-flight lookup holds a slot. -/
theorem C6_concurrency_bound (capacity m : Nat) (_hcap : 1 ≤ capacity)
    (s : SchedState) (hreach : Reach capacity m s) :
    fetchCount s ≤ capacity := by
  have hinv := slotInv_reach hreach
  have hle := fetchCount_le_heldCount s
  unfold slotInv at hinv
  omega

/-- C6 witness: the bound applied at capacity 2, three records, and the
initial state (reachable by the empty step sequence). -/
theorem C6_concurrency_bound_witness : fetchCount (initState 2 3) ≤ 2 :=
  C6_concurrency_bound 2 3 (by decide) (initState 2 3) Relation.ReflTransGen.refl
